import Mathlib

/-!
Shallow embedding of the restaurant search result-merging core of the
`binger_backend` repository (`backend/app/api/v1/endpoints/restaurants.py`):
the similarity matcher `_similarity`, the duplicate check
`_is_duplicate_restaurant`, the merger `_merge_restaurant_results`, and the
failure-isolation structure of the hybrid branch of `search_restaurants`.

Python strings become `String`, Python `float` ratios of small set
cardinalities become `ℚ` (the comparisons involved are exact at these
magnitudes), Python lists become `List`, Python `set` becomes `Finset String`,
and a provider call that may raise becomes an `Except String` value.
-/

namespace Binger

/-- A restaurant search hit, with the fields the merge logic reads
(`restaurant_name`, `city`, `images`; each `dict.get` default `""` / `[]`
is baked into the field type). -/
structure RestaurantRecord where
  restaurant_name : String
  city : String
  images : List String
  deriving DecidableEq, Repr

/-- Python `str.lower()` (ASCII case mapping, as used on the ASCII data here). -/
def pyLower (s : String) : String :=
  String.mk (s.data.map Char.toLower)

/-- Python `str.endswith(t)`: `t` is a suffix of `s`. -/
def pyEndsWith (s t : String) : Bool :=
  t.data.isSuffixOf s.data

/-- Helper for Python `str.split()`: accumulate the current word (in reverse)
and cut at whitespace, discarding empty segments. -/
def wordsAux : List Char → List Char → List String
  | [], acc => if acc.isEmpty then [] else [String.mk acc.reverse]
  | c :: cs, acc =>
    if c.isWhitespace then
      if acc.isEmpty then wordsAux cs [] else String.mk acc.reverse :: wordsAux cs []
    else
      wordsAux cs (c :: acc)

/-- Python `set(s.split())`: the set of whitespace-separated words of `s`. -/
def pyWords (s : String) : Finset String :=
  (wordsAux s.data []).toFinset

/-- `_similarity` from `restaurants.py` lines 138–153: word-overlap
(Jaccard) ratio, guarded by `if not s1 or not s2` (empty string),
`if not words1 or not words2` (empty word set, where `words1 = set(s1.split())`
and `words2 = set(s2.split())`), and the trailing
`... if union else 0.0` on the returned ratio. -/
def _similarity (s1 s2 : String) : ℚ :=
  if s1 = "" ∨ s2 = "" then 0
  else if pyWords s1 = ∅ ∨ pyWords s2 = ∅ then 0
  else if pyWords s1 ∪ pyWords s2 ≠ ∅ then
    (((pyWords s1 ∩ pyWords s2).card : ℚ) / ((pyWords s1 ∪ pyWords s2).card : ℚ))
  else 0

/-- The per-pair match test in the loop body of `_is_duplicate_restaurant`
(line 132): name similarity above `0.7` and equal lower-cased cities. -/
def dup_match (restaurant existing : RestaurantRecord) : Bool :=
  decide (_similarity (pyLower restaurant.restaurant_name) (pyLower existing.restaurant_name) > 7/10)
    && (pyLower restaurant.city == pyLower existing.city)

/-- `_is_duplicate_restaurant` from `restaurants.py` lines 122–135: the loop
with early `return True` is `List.any`. -/
def _is_duplicate_restaurant (restaurant : RestaurantRecord) (existing_list : List RestaurantRecord) : Bool :=
  existing_list.any (fun existing => dup_match restaurant existing)

/-- Line 113 of `restaurants.py`, literally:
`images and all(img for img in images if img and not img.endswith("placeholder.jpg"))`.
The generator yields only the images passing the `if` filter, and `all` checks
the truthiness of each yielded image. -/
def has_real_images (images : List String) : Bool :=
  !images.isEmpty
    && ((images.filter (fun img => !(img == "") && !(pyEndsWith img "placeholder.jpg"))).all
          (fun img => !(img == "")))

/-- The guard of lines 110–115: not a duplicate, and (has real images or the
accumulated list still has fewer than 3 records). -/
def includeRecord (ai_restaurant : RestaurantRecord) (merged : List RestaurantRecord) : Bool :=
  !(_is_duplicate_restaurant ai_restaurant merged)
    && (has_real_images ai_restaurant.images || decide (merged.length < 3))

/-- The `for ai_restaurant in openai_results` loop of lines 109–116, as a
recursion over the remaining OpenAI records with the accumulated `merged`
list as state. -/
def mergeLoop : List RestaurantRecord → List RestaurantRecord → List RestaurantRecord
  | merged, [] => merged
  | merged, ai_restaurant :: rest =>
    if includeRecord ai_restaurant merged then
      mergeLoop (merged ++ [ai_restaurant]) rest
    else
      mergeLoop merged rest

/-- `_merge_restaurant_results` from `restaurants.py` lines 97–119: seed with
all Gemini (primary-tier) records in order, filter the OpenAI (secondary-tier)
records through the loop, truncate to 5 (`merged[:5]`). -/
def _merge_restaurant_results (openai_results gemini_results : List RestaurantRecord) : List RestaurantRecord :=
  (mergeLoop gemini_results openai_results).take 5

/-- The secondary-tier records the loop admits, without the seed list:
`mergeLoop merged rest = merged ++ secondaryIncluded merged rest`. -/
def secondaryIncluded : List RestaurantRecord → List RestaurantRecord → List RestaurantRecord
  | _, [] => []
  | merged, ai_restaurant :: rest =>
    if includeRecord ai_restaurant merged then
      ai_restaurant :: secondaryIncluded (merged ++ [ai_restaurant]) rest
    else
      secondaryIncluded merged rest

/-- A provider call's outcome (lines 71–79): an exception is caught and the
provider contributes the empty list. -/
def resultsOrEmpty (r : Except String (List RestaurantRecord)) : List RestaurantRecord :=
  match r with
  | Except.ok rs => rs
  | Except.error _ => []

/-- The hybrid (mode 3) branch of `search_restaurants` (lines 61–90): each
provider call is an `Except` value whose failure degrades to `[]`, results are
merged, and the image backfill (`fetch_images_for_restaurants`, an external
collaborator per spec §4.4) runs only when the merged list is non-empty
(`if restaurants:` on line 85). -/
def search_restaurants_hybrid (enrich : List RestaurantRecord → List RestaurantRecord)
    (openai_result gemini_result : Except String (List RestaurantRecord)) : List RestaurantRecord :=
  let openai_restaurants := resultsOrEmpty openai_result
  let gemini_restaurants := resultsOrEmpty gemini_result
  let restaurants := _merge_restaurant_results openai_restaurants gemini_restaurants
  if restaurants.isEmpty then restaurants else enrich restaurants

/-- Spec-side definition (§4.2 step 3 / glossary): the Jaccard similarity
`|intersection| / |union|` over the two word sets (with `ℚ`'s `x / 0 = 0`
convention covering the empty-union corner). -/
def jaccard (s1 s2 : String) : ℚ :=
  ((pyWords s1 ∩ pyWords s2).card : ℚ) / ((pyWords s1 ∪ pyWords s2).card : ℚ)

/-! ### Helper lemmas -/

lemma pyWords_empty : pyWords "" = ∅ := rfl

/-- The guards of `_similarity` are redundant: it always computes the Jaccard
ratio (every guard returns `0`, which is what the ratio evaluates to there). -/
lemma sim_jaccard (s1 s2 : String) : _similarity s1 s2 = jaccard s1 s2 := by
  unfold _similarity jaccard
  split
  · next h =>
    obtain h | h := h <;> subst h <;> simp [pyWords_empty]
  · split
    · next h =>
      obtain h | h := h <;> rw [h] <;> simp
    · split
      · rfl
      · next h =>
        rw [not_not] at h
        simp [h]

lemma sim_zero_of_inter {s1 s2 : String}
    (h : (pyWords s1 ∩ pyWords s2).card = 0) : _similarity s1 s2 = 0 := by
  rw [sim_jaccard, jaccard, h]
  simp

lemma dup_match_false_of_inter (r e : RestaurantRecord)
    (h : (pyWords (pyLower r.restaurant_name) ∩ pyWords (pyLower e.restaurant_name)).card = 0) :
    dup_match r e = false := by
  unfold dup_match
  rw [sim_zero_of_inter h, decide_eq_false (by norm_num), Bool.false_and]

lemma dup_match_false_of_city (r e : RestaurantRecord)
    (h : (pyLower r.city == pyLower e.city) = false) : dup_match r e = false := by
  unfold dup_match
  rw [h, Bool.and_false]

/-- The `all(...)` of line 113 is vacuously true: every image the generator
yields already passed the `if img` filter, so `has_real_images` only tests
whether the list is non-empty — the `placeholder.jpg` filter has no effect. -/
lemma has_real_images_eq (images : List String) :
    has_real_images images = !images.isEmpty := by
  unfold has_real_images
  have hall : ∀ l : List String,
      (l.filter (fun img => !(img == "") && !(pyEndsWith img "placeholder.jpg"))).all
        (fun img => !(img == "")) = true := by
    intro l
    induction l with
    | nil => rfl
    | cons a l ih =>
      simp only [List.filter_cons]
      split
      · next h =>
        simp only [List.all_cons, ih, Bool.and_true]
        rw [Bool.and_eq_true] at h
        exact h.1
      · exact ih
  rw [hall, Bool.and_true]

lemma mergeLoop_eq_append :
    ∀ (rest merged : List RestaurantRecord),
      mergeLoop merged rest = merged ++ secondaryIncluded merged rest := by
  intro rest
  induction rest with
  | nil => intro merged; simp [mergeLoop, secondaryIncluded]
  | cons r rest ih =>
    intro merged
    cases h : includeRecord r merged <;>
      simp [mergeLoop, secondaryIncluded, h, ih, List.append_assoc]

lemma secondaryIncluded_sublist :
    ∀ (rest merged : List RestaurantRecord),
      List.Sublist (secondaryIncluded merged rest) rest := by
  intro rest
  induction rest with
  | nil => intro merged; simp [secondaryIncluded]
  | cons r rest ih =>
    intro merged
    cases h : includeRecord r merged
    · simpa [secondaryIncluded, h] using List.Sublist.cons r (ih merged)
    · simpa [secondaryIncluded, h] using List.Sublist.cons₂ r (ih (merged ++ [r]))

lemma mk_nil_eq : String.mk [] = "" := rfl

lemma sim_empty_left (x : String) : _similarity "" x = 0 := by
  rw [sim_jaccard, jaccard]
  simp [pyWords_empty]

lemma sim_empty_right (x : String) : _similarity x "" = 0 := by
  rw [sim_jaccard, jaccard]
  simp [pyWords_empty]

lemma pyWords_single (c : Char) :
    pyWords (String.mk [c]) = if c.isWhitespace then ∅ else {String.mk [c]} := by
  simp only [pyWords]
  by_cases h : c.isWhitespace <;> simp [wordsAux, h]

/-! ### Claim theorems -/

/-- C2: for every pair of input lists, the Merger's output has length at
most 5. -/
theorem merge_output_length_le_five :
    ∀ openai_results gemini_results : List RestaurantRecord,
      (_merge_restaurant_results openai_results gemini_results).length ≤ 5 := by
  intro o g
  unfold _merge_restaurant_results
  rw [List.length_take]
  exact min_le_left _ _

/-- C3: the Merger's output is the primary (Gemini) list followed by the
admitted secondary (OpenAI) records, truncated to 5; hence every primary
record within the first 5 slots appears at its own position (no primary
record is filtered or deduplicated), and the admitted secondary records form
a sublist (preserving relative order) of the secondary input. -/
theorem merge_primary_records_first :
    ∀ openai_results gemini_results : List RestaurantRecord,
      _merge_restaurant_results openai_results gemini_results
          = (gemini_results ++ secondaryIncluded gemini_results openai_results).take 5
        ∧ (∀ i : Nat, i < 5 → i < gemini_results.length →
            (_merge_restaurant_results openai_results gemini_results)[i]? = gemini_results[i]?)
        ∧ List.Sublist (secondaryIncluded gemini_results openai_results) openai_results := by
  intro o g
  have h1 : _merge_restaurant_results o g
      = (g ++ secondaryIncluded g o).take 5 := by
    unfold _merge_restaurant_results
    rw [mergeLoop_eq_append]
  refine ⟨h1, fun i h5 hg => ?_, secondaryIncluded_sublist o g⟩
  rw [h1, List.getElem?_take, if_pos h5, List.getElem?_append, if_pos hg]

/-- C3 witness: at a concrete input, slot 0 of the output is the first
primary record. -/
theorem merge_primary_records_first_witness :
    (_merge_restaurant_results [] [⟨"Nobu", "Dubai", []⟩])[0]?
      = [(⟨"Nobu", "Dubai", []⟩ : RestaurantRecord)][0]? :=
  (merge_primary_records_first [] [⟨"Nobu", "Dubai", []⟩]).2.1 0 (by decide) (by decide)

/-- C4: `_is_duplicate_restaurant c L` is true iff some entry `e` of `L` has
name similarity above `0.7` with `c` (on lower-cased names) and the same
lower-cased city; on the empty list it is always false. -/
theorem is_duplicate_any_match :
    (∀ (c : RestaurantRecord) (L : List RestaurantRecord),
        _is_duplicate_restaurant c L = true ↔
          ∃ e, e ∈ L ∧
            _similarity (pyLower c.restaurant_name) (pyLower e.restaurant_name) > 7/10 ∧
            pyLower c.city = pyLower e.city)
    ∧ ∀ c : RestaurantRecord, _is_duplicate_restaurant c [] = false := by
  constructor
  · intro c L
    simp [_is_duplicate_restaurant, List.any_eq_true, dup_match, Bool.and_eq_true,
      decide_eq_true_eq, beq_iff_eq]
  · intro c
    rfl

/-- C4 witness: a concrete record is not a duplicate of the empty list. -/
theorem is_duplicate_any_match_witness :
    _is_duplicate_restaurant ⟨"Nobu", "Dubai", []⟩ [] = false :=
  is_duplicate_any_match.2 ⟨"Nobu", "Dubai", []⟩

/-- C5: `_similarity` always equals the Jaccard index of the two word sets,
is 0 whenever either string or either word set is empty, and in particular
is 0 whenever either argument is the empty string. -/
theorem similarity_eq_jaccard :
    (∀ s1 s2 : String, _similarity s1 s2 = jaccard s1 s2)
    ∧ (∀ s1 s2 : String,
        s1 = "" ∨ s2 = "" ∨ pyWords s1 = ∅ ∨ pyWords s2 = ∅ → _similarity s1 s2 = 0)
    ∧ (∀ x : String, _similarity "" x = 0 ∧ _similarity x "" = 0) := by
  refine ⟨sim_jaccard, ?_, ?_⟩
  · intro s1 s2 h
    rcases h with h | h | h | h
    · subst h; rw [sim_jaccard, jaccard]; simp [pyWords_empty]
    · subst h; rw [sim_jaccard, jaccard]; simp [pyWords_empty]
    · rw [sim_jaccard, jaccard, h]; simp
    · rw [sim_jaccard, jaccard, h]; simp
  · intro x
    exact ⟨by rw [sim_jaccard, jaccard]; simp [pyWords_empty],
           by rw [sim_jaccard, jaccard]; simp [pyWords_empty]⟩

/-- C5 witness: the empty string has similarity 0 with a concrete string. -/
theorem similarity_eq_jaccard_witness : _similarity "" "anything" = 0 :=
  similarity_eq_jaccard.2.1 "" "anything" (Or.inl rfl)

/-- C9: in the hybrid branch, a provider failure is equivalent to that
provider returning zero results, and when both providers fail the operation
returns the empty list (never an error; the enrichment step is skipped by the
`if restaurants:` guard). -/
theorem hybrid_provider_failure_isolated :
    (∀ (enrich : List RestaurantRecord → List RestaurantRecord)
        (e : String) (g : Except String (List RestaurantRecord)),
        search_restaurants_hybrid enrich (Except.error e) g
          = search_restaurants_hybrid enrich (Except.ok []) g)
    ∧ (∀ (enrich : List RestaurantRecord → List RestaurantRecord)
        (o : Except String (List RestaurantRecord)) (e : String),
        search_restaurants_hybrid enrich o (Except.error e)
          = search_restaurants_hybrid enrich o (Except.ok []))
    ∧ (∀ (enrich : List RestaurantRecord → List RestaurantRecord) (e1 e2 : String),
        search_restaurants_hybrid enrich (Except.error e1) (Except.error e2) = []) :=
  ⟨fun _ _ _ => rfl, fun _ _ _ => rfl, fun _ _ _ => rfl⟩

/-- C10: `_similarity` always lands in `[0, 1]`. -/
theorem similarity_nonneg_le_one :
    ∀ s1 s2 : String, 0 ≤ _similarity s1 s2 ∧ _similarity s1 s2 ≤ 1 := by
  intro s1 s2
  rw [sim_jaccard, jaccard]
  constructor
  · positivity
  · rcases Nat.eq_zero_or_pos (pyWords s1 ∪ pyWords s2).card with h | h
    · rw [h]
      simp
    · rw [div_le_one (by exact_mod_cast h)]
      exact_mod_cast Finset.card_le_card Finset.inter_subset_union

/-- C6 counterexample: "a" has length at most 1, yet
`_similarity "a" "a" = 1 ≠ 0`, and two records both named "a" in the same
city do match as duplicates. -/
theorem single_char_similarity_counterexample :
    ("a" : String).length ≤ 1
      ∧ _similarity "a" "a" = 1
      ∧ _similarity "a" "a" ≠ 0
      ∧ _is_duplicate_restaurant ⟨"a", "x", []⟩ [⟨"a", "x", []⟩] = true := by
  have hsim : _similarity "a" "a" = 1 := by
    rw [sim_jaccard, jaccard,
      show (pyWords "a" ∩ pyWords "a").card = 1 from by decide,
      show (pyWords "a" ∪ pyWords "a").card = 1 from by decide]
    norm_num
  have hlow : pyLower "a" = "a" := by decide
  refine ⟨by decide, hsim, by rw [hsim]; norm_num, ?_⟩
  apply List.any_eq_true.mpr
  refine ⟨⟨"a", "x", []⟩, by simp, ?_⟩
  show (decide (_similarity (pyLower "a") (pyLower "a") > 7/10)
      && (pyLower "x" == pyLower "x")) = true
  rw [hlow, hsim, decide_eq_true (show (1:ℚ) > 7/10 by norm_num)]
  simp

/-- C6 amended: for names of length at most 1, similarity is 0 unless the two
names are equal with a non-empty word set (a single non-whitespace character),
in which case it is 1. -/
theorem similarity_short_names :
    ∀ s1 s2 : String, s1.length ≤ 1 → s2.length ≤ 1 →
      _similarity s1 s2 = if s1 = s2 ∧ pyWords s1 ≠ ∅ then 1 else 0 := by
  have key : ∀ l : List Char, (String.mk l).length ≤ 1 → l = [] ∨ ∃ c, l = [c] := by
    intro l hl
    match l with
    | [] => exact Or.inl rfl
    | [c] => exact Or.inr ⟨c, rfl⟩
    | a :: b :: t =>
      exfalso
      simp [String.length] at hl
  intro s1 s2 h1 h2
  obtain ⟨l1⟩ := s1
  obtain ⟨l2⟩ := s2
  rcases key l1 h1 with hc1 | ⟨c, hc1⟩ <;> subst hc1
  · rw [mk_nil_eq, sim_empty_left, if_neg]
    rintro ⟨-, hne⟩
    exact hne pyWords_empty
  · rcases key l2 h2 with hc2 | ⟨d, hc2⟩ <;> subst hc2
    · rw [mk_nil_eq, sim_empty_right, if_neg]
      rintro ⟨heq, -⟩
      have := congrArg String.data heq
      simp at this
    · by_cases hwc : c.isWhitespace
      · have hw1 : pyWords (String.mk [c]) = ∅ := by rw [pyWords_single]; simp [hwc]
        rw [sim_jaccard, jaccard, hw1, if_neg (fun hh => hh.2 rfl)]
        simp
      · have hw1 : pyWords (String.mk [c]) = {String.mk [c]} := by
          rw [pyWords_single]; simp [hwc]
        by_cases heq : String.mk [c] = String.mk [d]
        · rw [← heq, sim_jaccard, jaccard, Finset.inter_self, Finset.union_self, hw1,
            if_pos ⟨rfl, by simp⟩]
          simp
        · by_cases hwd : d.isWhitespace
          · have hw2 : pyWords (String.mk [d]) = ∅ := by rw [pyWords_single]; simp [hwd]
            rw [sim_jaccard, jaccard, hw2, if_neg (fun hh => heq hh.1)]
            simp
          · have hw2 : pyWords (String.mk [d]) = {String.mk [d]} := by
              rw [pyWords_single]; simp [hwd]
            rw [sim_jaccard, jaccard, hw1, hw2,
              Finset.singleton_inter_of_not_mem (by simpa using heq),
              if_neg (fun hh => heq hh.1)]
            simp

/-- C6 amended witness: at the concrete pair ("a", "b") the amended formula
evaluates with both hypotheses discharged. -/
theorem similarity_short_names_witness :
    _similarity "a" "b" = if ("a" : String) = "b" ∧ pyWords "a" ≠ ∅ then 1 else 0 :=
  similarity_short_names "a" "b" (by decide) (by decide)

/-- C8: a secondary record with no images, evaluated while the accumulated
list has fewer than 3 records, is included whenever its (lower-cased) city
differs from every accumulated record's city — the `< 3` condition itself
never consults cities; only the duplicate check does. -/
theorem secondary_under_three_included
    (r : RestaurantRecord) (merged rest : List RestaurantRecord)
    (himg : r.images = []) (hlen : merged.length < 3)
    (hcity : ∀ e ∈ merged, pyLower r.city ≠ pyLower e.city) :
    mergeLoop merged (r :: rest) = mergeLoop (merged ++ [r]) rest
      ∧ r ∈ mergeLoop merged (r :: rest) := by
  have hdup : _is_duplicate_restaurant r merged = false := by
    apply List.any_eq_false.mpr
    intro e he
    rw [dup_match_false_of_city r e (by
      rw [beq_eq_false_iff_ne]
      exact hcity e he)]
    simp
  have hinc : includeRecord r merged = true := by
    unfold includeRecord
    rw [hdup, himg]
    simp [has_real_images, hlen]
  have h1 : mergeLoop merged (r :: rest) = mergeLoop (merged ++ [r]) rest := by
    simp [mergeLoop, hinc]
  refine ⟨h1, ?_⟩
  rw [h1, mergeLoop_eq_append]
  simp

/-- C8 witness: a concrete imageless record with a fresh city joins a
1-element accumulated list. -/
theorem secondary_under_three_included_witness :
    mergeLoop [⟨"Beta", "y", []⟩] [⟨"Alpha", "x", []⟩]
        = mergeLoop ([⟨"Beta", "y", []⟩] ++ [⟨"Alpha", "x", []⟩]) []
      ∧ (⟨"Alpha", "x", []⟩ : RestaurantRecord) ∈ mergeLoop [⟨"Beta", "y", []⟩] [⟨"Alpha", "x", []⟩] :=
  secondary_under_three_included ⟨"Alpha", "x", []⟩ [⟨"Beta", "y", []⟩] [] rfl
    (by decide) (by decide)

/-- C7: with an empty primary tier and 6 pairwise non-duplicate secondary
records all lacking images, exactly the first 3 are admitted (via the `< 3`
rule) and the rest are rejected, so the output is those 3 records. -/
theorem merge_empty_primary_six_no_images
    (r1 r2 r3 r4 r5 r6 : RestaurantRecord)
    (himg : ∀ r ∈ [r1, r2, r3, r4, r5, r6], r.images = ([] : List String))
    (hnd : List.Pairwise (fun a b => dup_match b a = false) [r1, r2, r3, r4, r5, r6]) :
    _merge_restaurant_results [r1, r2, r3, r4, r5, r6] [] = [r1, r2, r3]
      ∧ (_merge_restaurant_results [r1, r2, r3, r4, r5, r6] []).length = 3 := by
  have h21 : dup_match r2 r1 = false := (List.pairwise_cons.mp hnd).1 r2 (by simp)
  have h31 : dup_match r3 r1 = false := (List.pairwise_cons.mp hnd).1 r3 (by simp)
  have h32 : dup_match r3 r2 = false :=
    (List.pairwise_cons.mp (List.pairwise_cons.mp hnd).2).1 r3 (by simp)
  have hi1 : r1.images = [] := himg r1 (by simp)
  have hi2 : r2.images = [] := himg r2 (by simp)
  have hi3 : r3.images = [] := himg r3 (by simp)
  have hi4 : r4.images = [] := himg r4 (by simp)
  have hi5 : r5.images = [] := himg r5 (by simp)
  have hi6 : r6.images = [] := himg r6 (by simp)
  have e1 : includeRecord r1 [] = true := by
    simp [includeRecord, _is_duplicate_restaurant, hi1, has_real_images]
  have e2 : includeRecord r2 [r1] = true := by
    simp [includeRecord, _is_duplicate_restaurant, hi2, has_real_images, h21]
  have e3 : includeRecord r3 [r1, r2] = true := by
    simp [includeRecord, _is_duplicate_restaurant, hi3, has_real_images, h31, h32]
  have e4 : includeRecord r4 [r1, r2, r3] = false := by
    simp [includeRecord, hi4, has_real_images]
  have e5 : includeRecord r5 [r1, r2, r3] = false := by
    simp [includeRecord, hi5, has_real_images]
  have e6 : includeRecord r6 [r1, r2, r3] = false := by
    simp [includeRecord, hi6, has_real_images]
  have key : _merge_restaurant_results [r1, r2, r3, r4, r5, r6] [] = [r1, r2, r3] := by
    unfold _merge_restaurant_results
    have hloop : mergeLoop [] [r1, r2, r3, r4, r5, r6] = [r1, r2, r3] := by
      simp [mergeLoop, e1, e2, e3, e4, e5, e6]
    rw [hloop]
    simp
  exact ⟨key, by rw [key]; rfl⟩

/-- C7 witness: six concrete imageless, pairwise non-duplicate records. -/
theorem merge_empty_primary_six_no_images_witness :
    _merge_restaurant_results
        [⟨"aa", "", []⟩, ⟨"bb", "", []⟩, ⟨"cc", "", []⟩, ⟨"dd", "", []⟩, ⟨"ee", "", []⟩,
         ⟨"ff", "", []⟩] []
        = [⟨"aa", "", []⟩, ⟨"bb", "", []⟩, ⟨"cc", "", []⟩]
      ∧ (_merge_restaurant_results
          [⟨"aa", "", []⟩, ⟨"bb", "", []⟩, ⟨"cc", "", []⟩, ⟨"dd", "", []⟩, ⟨"ee", "", []⟩,
           ⟨"ff", "", []⟩] []).length = 3 :=
  merge_empty_primary_six_no_images _ _ _ _ _ _ (by decide)
    (by
      refine List.Pairwise.cons (fun a ha => ?_) (List.Pairwise.cons (fun a ha => ?_)
        (List.Pairwise.cons (fun a ha => ?_) (List.Pairwise.cons (fun a ha => ?_)
          (List.Pairwise.cons (fun a ha => ?_) (List.Pairwise.cons (fun a ha => ?_)
            List.Pairwise.nil)))))
      all_goals fin_cases ha <;> exact dup_match_false_of_inter _ _ (by decide))

/-- C1 (evaluation of the code at the failing input): a secondary record whose
only image URL ends in `gallery1/placeholder.jpg` is counted by the code as
having real images, and is admitted by the merger even though the output list
already holds 3 records and the record is not a duplicate. -/
theorem placeholder_only_record_included :
    (∀ images : List String, has_real_images images = !images.isEmpty)
      ∧ has_real_images ["http://example.com/gallery1/placeholder.jpg"] = true
      ∧ _is_duplicate_restaurant
          ⟨"Delta Four", "Dubai", ["http://example.com/gallery1/placeholder.jpg"]⟩
          [⟨"Alpha One", "Dubai", []⟩, ⟨"Beta Two", "Dubai", []⟩, ⟨"Gamma Three", "Dubai", []⟩]
          = false
      ∧ 3 ≤ ([⟨"Alpha One", "Dubai", []⟩, ⟨"Beta Two", "Dubai", []⟩,
              ⟨"Gamma Three", "Dubai", []⟩] : List RestaurantRecord).length
      ∧ _merge_restaurant_results
          [⟨"Delta Four", "Dubai", ["http://example.com/gallery1/placeholder.jpg"]⟩]
          [⟨"Alpha One", "Dubai", []⟩, ⟨"Beta Two", "Dubai", []⟩, ⟨"Gamma Three", "Dubai", []⟩]
          = [⟨"Alpha One", "Dubai", []⟩, ⟨"Beta Two", "Dubai", []⟩, ⟨"Gamma Three", "Dubai", []⟩,
             ⟨"Delta Four", "Dubai", ["http://example.com/gallery1/placeholder.jpg"]⟩] := by
  have hA : dup_match ⟨"Delta Four", "Dubai", ["http://example.com/gallery1/placeholder.jpg"]⟩
      ⟨"Alpha One", "Dubai", []⟩ = false := dup_match_false_of_inter _ _ (by decide)
  have hB : dup_match ⟨"Delta Four", "Dubai", ["http://example.com/gallery1/placeholder.jpg"]⟩
      ⟨"Beta Two", "Dubai", []⟩ = false := dup_match_false_of_inter _ _ (by decide)
  have hC : dup_match ⟨"Delta Four", "Dubai", ["http://example.com/gallery1/placeholder.jpg"]⟩
      ⟨"Gamma Three", "Dubai", []⟩ = false := dup_match_false_of_inter _ _ (by decide)
  have hdup : _is_duplicate_restaurant
      ⟨"Delta Four", "Dubai", ["http://example.com/gallery1/placeholder.jpg"]⟩
      [⟨"Alpha One", "Dubai", []⟩, ⟨"Beta Two", "Dubai", []⟩, ⟨"Gamma Three", "Dubai", []⟩]
      = false := by
    simp [_is_duplicate_restaurant, hA, hB, hC]
  have hri : has_real_images ["http://example.com/gallery1/placeholder.jpg"] = true := by decide
  have hinc : includeRecord
      ⟨"Delta Four", "Dubai", ["http://example.com/gallery1/placeholder.jpg"]⟩
      [⟨"Alpha One", "Dubai", []⟩, ⟨"Beta Two", "Dubai", []⟩, ⟨"Gamma Three", "Dubai", []⟩]
      = true := by
    simp [includeRecord, hdup, hri]
  refine ⟨has_real_images_eq, hri, hdup, by decide, ?_⟩
  simp [_merge_restaurant_results, mergeLoop, hinc]

end Binger
